import Mathlib

/-!
# Verification of the videojs-hlsjs plugin logic

Shallow embedding of the original logic of the repository:

* the `PodResolutionsPlugin` resolution registry (`add`, `remove`, `select`,
  `getSelected`, and the private `_sort`);
* the `Html5Hlsjs` error-recovery policy (`_onError`, `_handleNetworkError`,
  `_handleMediaError`, `_handleUnrecovarableError`, `_removeQuality`, the
  `LEVEL_LOADED` handler and the `FRAG_LOADED` counter reset);
* the disposal/timer behaviour of `Html5Hlsjs.dispose`.

JavaScript objects are embedded as structures; possibly-`undefined` numeric
fields are `Option Int` / `Option Nat`, and the JavaScript comparison
operators on such values (`>`/`===` returning `false` on `undefined`) are
embedded explicitly.  Side effects on the external streaming engine and the
host tech are reified as lists of `HlsEffect` values; event-emitter
notifications (`this.trigger(...)`) are reified as lists of `RegEvent`
values, and invocations of an entry's `selectCallback` are recorded by the
entry's id (the callbacks themselves are opaque host functions).
-/

/-- A quality-level entry held by the resolution registry.  Mirrors the
objects pushed by `_notifyVideoQualities`: `{id, height, width, bitrate,
label, selected, selectCallback}`.  The `selectCallback` closure is opaque;
its invocation is recorded by id in the model of `select`. -/
structure Resolution where
  id : Int
  height : Option Int := none
  width : Option Int := none
  bitrate : Option Int := none
  label : String := ""
  selected : Bool := false
deriving DecidableEq, Repr

/-- JavaScript `x > y` on possibly-`undefined` numbers: any comparison with
`undefined` is `false`. -/
def jsGT (x y : Option Int) : Bool :=
  match x, y with
  | some a, some b => decide (b < a)
  | _, _ => false

/-- JavaScript `x === y` on possibly-`undefined` numbers: `undefined` is
only strictly equal to `undefined`. -/
def jsEQ (x y : Option Int) : Bool :=
  match x, y with
  | some a, some b => decide (a = b)
  | none, none => true
  | _, _ => false

namespace PodResolutionsPlugin

/-- The comparator of `PodResolutionsPlugin._sort`:
`(a, b) => { if (a.id === -1) return 1; if (b.id === -1) return -1;
if (a.height > b.height) return -1; if (a.height === b.height) return 0;
return 1; }`. -/
def rcmp (a b : Resolution) : Int :=
  if a.id = -1 then 1
  else if b.id = -1 then -1
  else if jsGT a.height b.height then -1
  else if jsEQ a.height b.height then 0
  else 1

/-- Stable insertion of one element with respect to the comparator
(an element is placed before the first element it does not compare
after). -/
def insertSorted (x : Resolution) : List Resolution → List Resolution
  | [] => [x]
  | a :: l => if rcmp x a ≤ 0 then x :: a :: l else a :: insertSorted x l

/-- `PodResolutionsPlugin._sort`: `this.resolutions.sort(comparator)`.
`Array.prototype.sort` with a consistent comparator is embedded as a stable
insertion sort by that comparator. -/
def sortResolutions : List Resolution → List Resolution
  | [] => []
  | a :: l => insertSorted a (sortResolutions l)

/-- Notifications emitted through the plugin's event emitter
(`this.trigger(...)`). -/
inductive RegEvent where
  | resolutionsAdded
  | resolutionsRemoved
  | resolutionsChanged
deriving DecidableEq, Repr

/-- The mutable fields of `PodResolutionsPlugin`:
`currentSelection = null`, `resolutions = []`,
`autoResolutionChosenId = null`. -/
structure RegistryState where
  currentSelection : Option Resolution := none
  resolutions : List Resolution := []
  autoResolutionChosenId : Option Int := none
deriving DecidableEq, Repr

/-- The initial plugin state. -/
def initState : RegistryState := {}

/-- `getSelected` applied to an explicit resolution list:
`resolutions.find((r) => r.id === autoResolutionChosenId)` (a `null`
reference id matches no entry). -/
def getSelectedFrom (resolutions : List Resolution) (autoId : Option Int) :
    Option Resolution :=
  resolutions.find? (fun r => autoId = some r.id)

/-- `PodResolutionsPlugin.getSelected`. -/
def getSelected (s : RegistryState) : Option Resolution :=
  getSelectedFrom s.resolutions s.autoResolutionChosenId

/-- `PodResolutionsPlugin.getResolutions`. -/
def getResolutions (s : RegistryState) : List Resolution :=
  s.resolutions

/-- `PodResolutionsPlugin.add`: push every new entry, recompute
`currentSelection = this.getSelected()`, `_sort()`, then trigger
`"resolutions-added"`. -/
def add (s : RegistryState) (newResolutions : List Resolution) :
    RegistryState × List RegEvent :=
  let pushed := s.resolutions ++ newResolutions
  ({ currentSelection := getSelectedFrom pushed s.autoResolutionChosenId
     resolutions := sortResolutions pushed
     autoResolutionChosenId := s.autoResolutionChosenId },
   [RegEvent.resolutionsAdded])

/-- `PodResolutionsPlugin.remove`:
`this.resolutions = this.resolutions.filter((r) => r.id !== resolutionIndex)`
then trigger `"resolutions-removed"`.  Note `currentSelection` is left
untouched. -/
def remove (s : RegistryState) (resolutionIndex : Int) :
    RegistryState × List RegEvent :=
  ({ s with
      resolutions := s.resolutions.filter (fun r => ¬ r.id = resolutionIndex) },
   [RegEvent.resolutionsRemoved])

/-- Argument object of `select`. -/
structure SelectOptions where
  id : Int
  autoResolutionChosenId : Int
  fireCallback : Bool
deriving DecidableEq, Repr

/-- `PodResolutionsPlugin.select`.  Returns the new state, the emitted
notifications, and the ids of the entries whose `selectCallback` was
invoked.  Mirrors the source: short-circuit when
`this.currentSelection?.id === id &&
this.autoResolutionChosenId === autoResolutionChosenId`; otherwise store the
new reference id, set `r.selected = r.id === id` for every entry, let
`currentSelection` be the last matching entry (unchanged when none
matches), fire the callback of each matching entry when requested, and
trigger `"resolutions-changed"`. -/
def select (s : RegistryState) (options : SelectOptions) :
    RegistryState × List RegEvent × List Int :=
  if s.currentSelection.map (fun r => r.id) = some options.id ∧
      s.autoResolutionChosenId = some options.autoResolutionChosenId then
    (s, [], [])
  else
    let resolutions :=
      s.resolutions.map (fun r => { r with selected := decide (r.id = options.id) })
    let hits := resolutions.filter (fun r => r.selected)
    let currentSelection :=
      match hits.getLast? with
      | some m => some m
      | none => s.currentSelection
    let fired := if options.fireCallback then hits.map (fun r => r.id) else []
    ({ currentSelection := currentSelection
       resolutions := resolutions
       autoResolutionChosenId := some options.autoResolutionChosenId },
     [RegEvent.resolutionsChanged], fired)

/-- One registry mutation, for reasoning about arbitrary sequences of
`add`/`remove` calls. -/
inductive RegOp where
  | add (newResolutions : List Resolution)
  | remove (resolutionIndex : Int)

/-- Apply one operation (discarding the emitted notification). -/
def applyRegOp (s : RegistryState) : RegOp → RegistryState
  | RegOp.add rs => (add s rs).1
  | RegOp.remove i => (remove s i).1

/-- Apply a sequence of operations from left to right. -/
def applyRegOps (s : RegistryState) (ops : List RegOp) : RegistryState :=
  ops.foldl applyRegOp s

/-- Well-formed resolution list, capturing the spec's caller obligations:
at most one automatic entry (`id = -1`, added once per session) and a
defined `height` on every concrete (non-automatic) entry.  Under these
obligations the `_sort` comparator is a consistent comparison function. -/
def WFres (l : List Resolution) : Prop :=
  l.countP (fun r => decide (r.id = -1)) ≤ 1 ∧
    ∀ r ∈ l, r.id ≠ -1 → r.height ≠ none

instance (l : List Resolution) : Decidable (WFres l) := by
  unfold WFres; infer_instance

/-- The caller obligation for one operation: an `add` must leave the
combined entry list well formed (`remove` has no obligation). -/
def WFStep (s : RegistryState) : RegOp → Prop
  | RegOp.add rs => WFres (s.resolutions ++ rs)
  | RegOp.remove _ => True

instance (s : RegistryState) (op : RegOp) : Decidable (WFStep s op) :=
  match op with
  | RegOp.add rs => (inferInstance : Decidable (WFres (s.resolutions ++ rs)))
  | RegOp.remove _ => (inferInstance : Decidable True)

/-- The caller obligations along a whole sequence of operations. -/
def WFExec (s : RegistryState) : List RegOp → Prop
  | [] => True
  | op :: ops => WFStep s op ∧ WFExec (applyRegOp s op) ops

instance instDecidableWFExec (s : RegistryState) (ops : List RegOp) :
    Decidable (WFExec s ops) :=
  match ops with
  | [] => (inferInstance : Decidable True)
  | op :: ops =>
    have : Decidable (WFExec (applyRegOp s op) ops) :=
      instDecidableWFExec (applyRegOp s op) ops
    (inferInstance : Decidable (_ ∧ _))

/-- The registry ordering invariant stated by the spec: every entry is
either followed only by the automatic entry, or is a concrete entry whose
height is at least that of every later concrete entry; equivalently the
list is sorted descending by height with the automatic entry last. -/
def RegistrySorted (l : List Resolution) : Prop :=
  l.Pairwise (fun a b =>
    b.id = -1 ∨
      (a.id ≠ -1 ∧ (jsGT a.height b.height ∨ jsEQ a.height b.height)))

instance (l : List Resolution) : Decidable (RegistrySorted l) := by
  unfold RegistrySorted; infer_instance

end PodResolutionsPlugin

namespace Html5Hlsjs

/-- `Hls.ErrorTypes.NETWORK_ERROR`. -/
def NETWORK_ERROR : String := "networkError"

/-- `Hls.ErrorTypes.MEDIA_ERROR`. -/
def MEDIA_ERROR : String := "mediaError"

/-- The payload of an `Hls.Events.ERROR` event, as read by `_onError`. -/
structure ErrorData where
  type : String
  details : String
  fatal : Bool
deriving DecidableEq, Repr

/-- The error object built by `_onError` and threaded through the recovery
handlers: `{ message, code? }`. -/
structure HlsError where
  code : Option Int := none
  message : String := ""
deriving DecidableEq, Repr

/-- The error object constructed at the top of `_onError`:
``message = `HLS.js error: ${data.type} - fatal: ${data.fatal} - ${data.details}` ``. -/
def hlsErrorOf (data : ErrorData) : HlsError :=
  { message := "HLS.js error: " ++ data.type ++ " - fatal: " ++
      toString data.fatal ++ " - " ++ data.details }

/-- `_getHumanErrorMsg`: a `switch` on `error.code` whose only arm is
`default: return error.message`. -/
def getHumanErrorMsg (error : HlsError) : String :=
  error.message

/-- A quality level of the streaming engine (`this.hls.levels[i]`); only
its `id` is read by the recovery policy. -/
structure HlsLevel where
  id : Int
deriving DecidableEq, Repr

/-- The external state read by the recovery handlers: `navigator.onLine`,
`this.hls.levels` and `this.hls.loadLevel`. -/
structure HlsEnv where
  onLine : Bool
  levels : List HlsLevel
  loadLevel : Int
deriving DecidableEq, Repr

/-- Side effects on the streaming engine / host tech, reified. -/
inductive HlsEffect where
  /-- `this.hls.recoverMediaError()`. -/
  | recoverMediaError
  /-- `this.hls.swapAudioCodec()`. -/
  | swapAudioCodec
  /-- `setTimeout(() => this.hls.startLoad(), delayMs)`. -/
  | scheduleRetry (delayMs : Nat)
  /-- `this.hls.once(Hls.Events.FRAG_LOADED, ...)` arming the network
  error counter reset. -/
  | armFragLoadedReset
  /-- `this.hls.removeLevel(index)`. -/
  | removeLevel (index : Int)
  /-- `this.player.podResolutions().remove(index)`. -/
  | podRemove (index : Int)
  /-- `this.hls.currentLevel = -1`. -/
  | setCurrentLevelAuto
  /-- `this.hls.destroy()`. -/
  | destroy
  /-- `this.tech.error = () => ({...error, message})`. -/
  | setTechError (message : String)
  /-- `this.tech.trigger("error")`. -/
  | triggerTechError
deriving DecidableEq, Repr

/-- The fields of `Html5Hlsjs` used by the recovery policy:
`errorCounts = {}` (a JavaScript object, so an absent key is
distinguishable from a stored `0`), `maxNetworkErrorRecovery = 5`,
`isLive = null`. -/
structure HlsState where
  errorCounts : String → Option Nat := fun _ => none
  maxNetworkErrorRecovery : Nat := 5
  isLive : Option Bool := none

/-- The provider's initial recovery state. -/
def initHlsState : HlsState := {}

/-- The increment at the top of `_onError`:
`if (this.errorCounts[data.type]) this.errorCounts[data.type] += 1;
else this.errorCounts[data.type] = 1;` (an absent key and a falsy `0`
both reset to `1`). -/
def bumpErrorCount (counts : String → Option Nat) (t : String) :
    String → Option Nat :=
  fun u =>
    if u = t then
      some (match counts t with
        | some n => if n = 0 then 1 else n + 1
        | none => 1)
    else counts u

/-- JavaScript `x <= n` where `x` may be `undefined` (`undefined <= n` is
`false`). -/
def jsLE (x : Option Nat) (n : Nat) : Bool :=
  match x with
  | some v => decide (v ≤ n)
  | none => false

/-- JavaScript `x > n` where `x` may be `undefined` (`undefined > n` is
`false`). -/
def jsGTN (x : Option Nat) (n : Nat) : Bool :=
  match x with
  | some v => decide (n < v)
  | none => false

/-- `_removeQuality(index)`: `hls.removeLevel(index)`,
`player.podResolutions().remove(index)`, `hls.currentLevel = -1`. -/
def removeQuality (index : Int) : List HlsEffect :=
  [HlsEffect.removeLevel index, HlsEffect.podRemove index,
   HlsEffect.setCurrentLevelAuto]

/-- `_handleUnrecovarableError` (source spelling): with more than one
non-automatic level remaining, drop the currently loading level and fall
back to automatic selection; otherwise destroy the engine, replace the
tech's error accessor, and trigger `"error"` on the tech. -/
def handleUnrecovarableError (env : HlsEnv) (error : HlsError) :
    List HlsEffect :=
  if 1 < (env.levels.filter (fun l => decide (-1 < l.id))).length then
    removeQuality env.loadLevel
  else
    [HlsEffect.destroy, HlsEffect.setTechError (getHumanErrorMsg error),
     HlsEffect.triggerTechError]

/-- `_handleMediaError`: recover on the 1st media error, swap the audio
codec and recover on the 2nd, escalate past the 2nd.  (An absent or `0`
count satisfies none of the guards and results in no action.) -/
def handleMediaError (s : HlsState) (env : HlsEnv) (error : HlsError) :
    List HlsEffect :=
  if s.errorCounts MEDIA_ERROR = some 1 then
    [HlsEffect.recoverMediaError]
  else if s.errorCounts MEDIA_ERROR = some 2 then
    [HlsEffect.swapAudioCodec, HlsEffect.recoverMediaError]
  else if jsGTN (s.errorCounts MEDIA_ERROR) 2 then
    handleUnrecovarableError env error
  else
    []

/-- `_handleNetworkError`: silent no-op while offline; schedule a retry
(`setTimeout(startLoad, 1000)`) and arm the `FRAG_LOADED` counter reset
while the count is within `maxNetworkErrorRecovery`; otherwise escalate. -/
def handleNetworkError (s : HlsState) (env : HlsEnv) (error : HlsError) :
    List HlsEffect :=
  if env.onLine = false then []
  else if jsLE (s.errorCounts NETWORK_ERROR) s.maxNetworkErrorRecovery then
    [HlsEffect.scheduleRetry 1000, HlsEffect.armFragLoadedReset]
  else
    handleUnrecovarableError env error

/-- `_onError(_event, data)`: build the error object, bump the counter of
`data.type`, then dispatch — network errors (fatal or not) to the network
policy with `error.code = 2`; fatal media errors other than
`manifestIncompatibleCodecsError` to the media ladder with
`error.code = 3`; the remaining fatal errors straight to the unrecoverable
path; anything else is logged only. -/
def onError (s : HlsState) (env : HlsEnv) (data : ErrorData) :
    HlsState × List HlsEffect :=
  let error := hlsErrorOf data
  let s' : HlsState :=
    { s with errorCounts := bumpErrorCount s.errorCounts data.type }
  if data.type = NETWORK_ERROR then
    (s', handleNetworkError s' env { error with code := some 2 })
  else if data.fatal = true ∧ data.type = MEDIA_ERROR ∧
      data.details ≠ "manifestIncompatibleCodecsError" then
    (s', handleMediaError s' env { error with code := some 3 })
  else if data.fatal = true then
    (s', handleUnrecovarableError env error)
  else
    (s', [])

/-- The `Hls.Events.LEVEL_LOADED` handler, restricted to the fields the
recovery policy reads: `this.isLive = data.details.live` and
`if (this.isLive) this.maxNetworkErrorRecovery = 30`.  (The handler's DVR
bookkeeping — `edgeMargin`, `dvrDuration`, `_duration` — is not modelled;
no claim depends on it.) -/
def onLevelLoaded (s : HlsState) (live : Bool) : HlsState :=
  let s' : HlsState := { s with isLive := some live }
  if live then { s' with maxNetworkErrorRecovery := 30 } else s'

/-- The `FRAG_LOADED` callback armed by `_handleNetworkError`:
`this.errorCounts[Hls.ErrorTypes.NETWORK_ERROR] = 0`. -/
def fragLoadedReset (s : HlsState) : HlsState :=
  { s with errorCounts :=
      fun t => if t = NETWORK_ERROR then some 0 else s.errorCounts t }

/-- Run `_onError` over a sequence of error events against a fixed
engine environment, collecting the effect list of each step. -/
def onErrorTrace (s : HlsState) (env : HlsEnv) :
    List ErrorData → HlsState × List (List HlsEffect)
  | [] => (s, [])
  | d :: ds =>
    let r := onError s env d
    let rest := onErrorTrace r.1 env ds
    (rest.1, r.2 :: rest.2)

end Html5Hlsjs

namespace Html5Hlsjs

/-- Lifecycle state of one provider instance, for the disposal/timer
behaviour: the two video-element listeners, the engine instance, and the
browser timer queue entry created by `_handleNetworkError`'s
`setTimeout(() => this.hls.startLoad(), 1000)` (never stored, never
cleared). -/
structure ProviderState where
  errorListenerAttached : Bool := true
  playListenerAttached : Bool := false
  hlsDestroyed : Bool := false
  retryTimerPending : Bool := false
  retryCallbackRan : Bool := false
deriving DecidableEq, Repr

/-- The provider state after the constructor ran (the `"error"` listener
is attached). -/
def initProviderState : ProviderState := {}

/-- Lifecycle events of one provider instance. -/
inductive ProviderEvent where
  /-- A recoverable network error handled while online:
  `_handleNetworkError` runs `setTimeout(() => this.hls.startLoad(), 1000)`,
  placing a retry callback on the browser timer queue. -/
  | networkRetryScheduled
  /-- `dispose()`: removes the `play` and `error` video-element listeners,
  neutralizes the engine's loggers and calls `this.hls.destroy()`.  The
  body contains no `clearTimeout`, so a pending retry timer is left on the
  queue. -/
  | dispose
  /-- The browser timer queue fires the pending 1-second timeout, running
  `() => this.hls.startLoad()`. -/
  | retryTimerElapsed
deriving DecidableEq, Repr

/-- Small-step lifecycle semantics of one provider instance. -/
def stepProvider (s : ProviderState) : ProviderEvent → ProviderState
  | ProviderEvent.networkRetryScheduled => { s with retryTimerPending := true }
  | ProviderEvent.dispose =>
    { s with
        errorListenerAttached := false
        playListenerAttached := false
        hlsDestroyed := true }
  | ProviderEvent.retryTimerElapsed =>
    if s.retryTimerPending then
      { s with retryTimerPending := false, retryCallbackRan := true }
    else s

/-- Run a sequence of lifecycle events. -/
def runProvider (s : ProviderState) (evs : List ProviderEvent) :
    ProviderState :=
  evs.foldl stepProvider s

end Html5Hlsjs

namespace Html5Hlsjs

/-- An engine environment with a single (non-automatic) quality level,
online. -/
def envSingleLevel : HlsEnv :=
  { onLine := true, levels := [{ id := 0 }], loadLevel := 0 }

/-- An engine environment with two quality levels, online, currently
loading level 1. -/
def envTwoLevels : HlsEnv :=
  { onLine := true, levels := [{ id := 0 }, { id := 1 }], loadLevel := 1 }

/-- A single-level engine environment on a device detected offline. -/
def envOffline : HlsEnv :=
  { onLine := false, levels := [{ id := 0 }], loadLevel := 0 }

/-- A fatal media error event (a decode stall). -/
def mediaErrorData : ErrorData :=
  { type := "mediaError", details := "bufferStalledError", fatal := true }

/-- A fatal network error event (a fragment load failure). -/
def networkErrorData : ErrorData :=
  { type := "networkError", details := "fragLoadError", fatal := true }

end Html5Hlsjs

namespace PodResolutionsPlugin

/-- 720p and 1080p entries added to a fresh registry. -/
def regTwo : RegistryState :=
  (add initState
    [{ id := 0, height := some 720 }, { id := 1, height := some 1080 }]).1

/-- `regTwo` after `select({id: 0, autoResolutionChosenId: 0})`: entry 0 is
selected and is the current selection. -/
def regTwoSel : RegistryState :=
  (select regTwo
    { id := 0, autoResolutionChosenId := 0, fireCallback := false }).1

/-- `regTwoSel` after adding a third entry that arrives with
`selected: true` (as the automatic entry of `_notifyVideoQualities`
does): two entries now carry `selected = true`. -/
def regTwoSelDirty : RegistryState :=
  (add regTwoSel [{ id := 2, height := some 360, selected := true }]).1

/-- A single 720p entry added to a fresh registry. -/
def regOne : RegistryState :=
  (add initState [{ id := 0, height := some 720 }]).1

/-- `regOne` after `select({id: 0, autoResolutionChosenId: 0})`. -/
def regOneSel : RegistryState :=
  (select regOne
    { id := 0, autoResolutionChosenId := 0, fireCallback := false }).1

/-- `regOneSel` after adding an entry that arrives `selected: true`. -/
def regOneSelDirty : RegistryState :=
  (add regOneSel [{ id := 5, height := some 360, selected := true }]).1

/-- `regOneSelDirty` after `remove(0)`: entry 0 is gone but
`currentSelection` still references it, and the remaining entry 5 keeps
`selected = true`. -/
def regStale : RegistryState := (remove regOneSelDirty 0).1

end PodResolutionsPlugin

namespace PodResolutionsPlugin

lemma rcmp_le_zero_iff {a b : Resolution} :
    rcmp a b ≤ 0 ↔
      a.id ≠ -1 ∧
        (b.id = -1 ∨ jsGT a.height b.height = true ∨
          jsEQ a.height b.height = true) := by
  unfold rcmp
  split_ifs with h1 h2 h3 h4 <;> simp_all

lemma js_total {x y : Option Int} (hx : x ≠ none) (hy : y ≠ none) :
    jsGT x y = true ∨ jsEQ x y = true ∨ jsGT y x = true := by
  rcases x with _ | a
  · exact absurd rfl hx
  rcases y with _ | b
  · exact absurd rfl hy
  simp only [jsGT, jsEQ, decide_eq_true_eq]
  omega

lemma js_ge_trans {x y z : Option Int}
    (h1 : jsGT x y = true ∨ jsEQ x y = true)
    (h2 : jsGT y z = true ∨ jsEQ y z = true) :
    jsGT x z = true ∨ jsEQ x z = true := by
  rcases x with _ | a <;> rcases y with _ | b <;> rcases z with _ | c <;>
      simp_all [jsGT, jsEQ] <;>
    rcases h1 with h1 | h1 <;> rcases h2 with h2 | h2 <;> omega

lemma rcmp_trans {a b c : Resolution} (h1 : rcmp a b ≤ 0)
    (h2 : rcmp b c ≤ 0) : rcmp a c ≤ 0 := by
  rw [rcmp_le_zero_iff] at h1 h2 ⊢
  obtain ⟨ha, h1⟩ := h1
  obtain ⟨hb, h2⟩ := h2
  refine ⟨ha, ?_⟩
  rcases h2 with hc | h2
  · exact Or.inl hc
  rcases h1 with hb' | h1
  · exact absurd hb' hb
  · exact Or.inr (js_ge_trans h1 h2)

lemma rcmp_total {a b : Resolution} (hab : ¬(a.id = -1 ∧ b.id = -1))
    (ha : a.id ≠ -1 → a.height ≠ none) (hb : b.id ≠ -1 → b.height ≠ none) :
    rcmp a b ≤ 0 ∨ rcmp b a ≤ 0 := by
  by_cases h1 : a.id = -1
  · have h2 : b.id ≠ -1 := fun h => hab ⟨h1, h⟩
    right
    rw [rcmp_le_zero_iff]
    exact ⟨h2, Or.inl h1⟩
  · by_cases h2 : b.id = -1
    · left
      rw [rcmp_le_zero_iff]
      exact ⟨h1, Or.inl h2⟩
    · rcases js_total (ha h1) (hb h2) with h | h | h
      · left
        rw [rcmp_le_zero_iff]
        exact ⟨h1, Or.inr (Or.inl h)⟩
      · left
        rw [rcmp_le_zero_iff]
        exact ⟨h1, Or.inr (Or.inr h)⟩
      · right
        rw [rcmp_le_zero_iff]
        exact ⟨h2, Or.inr (Or.inl h)⟩

lemma mem_insertSorted {x a : Resolution} {l : List Resolution} :
    a ∈ insertSorted x l ↔ a = x ∨ a ∈ l := by
  induction l with
  | nil => simp [insertSorted]
  | cons b l ih =>
    unfold insertSorted
    split_ifs with h
    · simp [or_comm, or_left_comm]
    · simp [ih]
      tauto

lemma pairwise_insertSorted {x : Resolution} {l : List Resolution}
    (hl : l.Pairwise (fun a b => rcmp a b ≤ 0))
    (htot : ∀ a ∈ l, rcmp x a ≤ 0 ∨ rcmp a x ≤ 0) :
    (insertSorted x l).Pairwise (fun a b => rcmp a b ≤ 0) := by
  induction l with
  | nil => simp [insertSorted]
  | cons b l ih =>
    unfold insertSorted
    split_ifs with h
    · refine List.Pairwise.cons ?_ hl
      intro c hc
      rcases List.mem_cons.mp hc with rfl | hcl
      · exact h
      · exact rcmp_trans h (List.rel_of_pairwise_cons hl hcl)
    · have hbx : rcmp b x ≤ 0 := by
        rcases htot b (List.mem_cons_self b l) with h' | h'
        · exact absurd h' h
        · exact h'
      have hl' := List.pairwise_cons.mp hl
      refine List.pairwise_cons.mpr
        ⟨?_, ih hl'.2 (fun a ha => htot a (List.mem_cons_of_mem _ ha))⟩
      intro c hc
      rcases mem_insertSorted.mp hc with rfl | hcl
      · exact hbx
      · exact hl'.1 c hcl

lemma mem_sortResolutions {a : Resolution} {l : List Resolution} :
    a ∈ sortResolutions l ↔ a ∈ l := by
  induction l with
  | nil => simp [sortResolutions]
  | cons b l ih =>
    unfold sortResolutions
    rw [mem_insertSorted, ih]
    simp

lemma WFres_of_cons {x : Resolution} {l : List Resolution}
    (h : WFres (x :: l)) : WFres l := by
  obtain ⟨h1, h2⟩ := h
  refine ⟨?_, fun r hr => h2 r (List.mem_cons_of_mem _ hr)⟩
  calc l.countP (fun r => decide (r.id = -1)) ≤
      (x :: l).countP (fun r => decide (r.id = -1)) := by
        rw [List.countP_cons]
        omega
    _ ≤ 1 := h1

lemma WFres_total {x : Resolution} {l : List Resolution}
    (h : WFres (x :: l)) :
    ∀ a ∈ l, rcmp x a ≤ 0 ∨ rcmp a x ≤ 0 := by
  intro a ha
  obtain ⟨h1, h2⟩ := h
  refine rcmp_total ?_ (h2 x (List.mem_cons_self x l))
    (h2 a (List.mem_cons_of_mem _ ha))
  rintro ⟨hx, hA⟩
  have hpos : 0 < l.countP (fun r => decide (r.id = -1)) :=
    List.countP_pos_iff.mpr ⟨a, ha, by simp [hA]⟩
  have hcons : (x :: l).countP (fun r => decide (r.id = -1)) =
      l.countP (fun r => decide (r.id = -1)) + 1 := by
    rw [List.countP_cons]
    simp [hx]
  rw [hcons] at h1
  omega

lemma sortResolutions_pairwise {l : List Resolution} (h : WFres l) :
    (sortResolutions l).Pairwise (fun a b => rcmp a b ≤ 0) := by
  induction l with
  | nil => simp [sortResolutions]
  | cons x l ih =>
    unfold sortResolutions
    apply pairwise_insertSorted (ih (WFres_of_cons h))
    intro a ha
    exact WFres_total h a (mem_sortResolutions.mp ha)

lemma registrySorted_of_pairwise {l : List Resolution}
    (h : l.Pairwise (fun a b => rcmp a b ≤ 0)) : RegistrySorted l := by
  unfold RegistrySorted
  refine h.imp ?_
  intro a b hab
  rw [rcmp_le_zero_iff] at hab
  rcases hab with ⟨ha, hb | hge⟩
  · exact Or.inl hb
  · exact Or.inr ⟨ha, hge⟩

lemma registrySorted_filter {l : List Resolution} (p : Resolution → Bool)
    (h : RegistrySorted l) : RegistrySorted (l.filter p) :=
  List.Pairwise.sublist (List.filter_sublist l) h

lemma applyRegOps_sorted {s : RegistryState} {ops : List RegOp}
    (hs : RegistrySorted s.resolutions) (h : WFExec s ops) :
    RegistrySorted (applyRegOps s ops).resolutions := by
  induction ops generalizing s with
  | nil => exact hs
  | cons op ops ih =>
    obtain ⟨h1, h2⟩ := h
    have hstep : RegistrySorted (applyRegOp s op).resolutions := by
      cases op with
      | add rs =>
        exact registrySorted_of_pairwise (sortResolutions_pairwise h1)
      | remove i => exact registrySorted_filter _ hs
    exact ih hstep h2

end PodResolutionsPlugin

namespace PodResolutionsPlugin

lemma countP_id_le_one {l : List Resolution} {v : Int}
    (h : (l.map (fun r => r.id)).Nodup) :
    l.countP (fun r => decide (r.id = v)) ≤ 1 := by
  induction l with
  | nil => simp
  | cons a l ih =>
    rw [List.map_cons, List.nodup_cons] at h
    rw [List.countP_cons]
    by_cases hv : a.id = v
    · have hzero : l.countP (fun r => decide (r.id = v)) = 0 := by
        rw [List.countP_eq_zero]
        intro b hb
        simp only [decide_eq_true_eq]
        intro hbv
        apply h.1
        have hmem : b.id ∈ l.map (fun r => r.id) :=
          List.mem_map_of_mem _ hb
        rwa [hbv, ← hv] at hmem
      simp [hv, hzero]
    · simp [hv, ih h.2]

lemma select_resolutions_of_not_short (s : RegistryState) (o : SelectOptions)
    (h : ¬(s.currentSelection.map (fun r => r.id) = some o.id ∧
        s.autoResolutionChosenId = some o.autoResolutionChosenId)) :
    (select s o).1.resolutions =
      s.resolutions.map
        (fun r => { r with selected := decide (r.id = o.id) }) := by
  unfold select
  rw [if_neg h]

end PodResolutionsPlugin

open PodResolutionsPlugin in
/-- C1: for every sequence of `add`/`remove` operations respecting the
caller obligations (a single automatic entry, defined heights on concrete
entries — `WFExec`), the resolutions list is afterwards sorted in
descending order of height with the automatic entry (`id = -1`) last; in
particular `add([{id:0,height:720},{id:1,height:1080}])` followed by
`add([{id:-1}])` yields the order `[id 1 (1080p), id 0 (720p),
id -1 (Auto)]`. -/
theorem registry_sorted_desc_auto_last :
    (∀ ops : List RegOp, WFExec initState ops →
        RegistrySorted (applyRegOps initState ops).resolutions) ∧
      (applyRegOps initState
          [RegOp.add
            [{ id := 0, height := some 720 }, { id := 1, height := some 1080 }],
           RegOp.add [{ id := -1 }]]).resolutions.map (fun r => r.id) =
        [1, 0, -1] := by
  constructor
  · intro ops h
    exact applyRegOps_sorted (by unfold RegistrySorted initState; simp) h
  · decide

open PodResolutionsPlugin in
/-- Witness for the C1 theorem at the two-`add` sequence of the claim. -/
theorem registry_sorted_desc_auto_last_witness :
    WFExec initState
        [RegOp.add
          [{ id := 0, height := some 720 }, { id := 1, height := some 1080 }],
         RegOp.add [{ id := -1 }]] ∧
      RegistrySorted (applyRegOps initState
        [RegOp.add
          [{ id := 0, height := some 720 }, { id := 1, height := some 1080 }],
         RegOp.add [{ id := -1 }]]).resolutions :=
  ⟨by decide, registry_sorted_desc_auto_last.1 _ (by decide)⟩

open PodResolutionsPlugin in
/-- C6: `select` with an id equal to the current selection's id and an
automatic-mode reference id equal to the stored one returns immediately:
the state is unchanged (no `selected` flag changes), no notification is
emitted, and no `selectCallback` is invoked. -/
theorem select_unchanged_short_circuits (s : RegistryState)
    (o : SelectOptions)
    (hid : s.currentSelection.map (fun r => r.id) = some o.id)
    (hauto : s.autoResolutionChosenId = some o.autoResolutionChosenId) :
    select s o = (s, [], []) := by
  unfold select
  rw [if_pos ⟨hid, hauto⟩]

open PodResolutionsPlugin in
/-- Witness for the C6 theorem: re-selecting entry 0 of `regTwoSel` with
`fireCallback: true` changes nothing and fires nothing. -/
theorem select_unchanged_short_circuits_witness :
    (regTwoSel.currentSelection.map (fun r => r.id) = some 0 ∧
        regTwoSel.autoResolutionChosenId = some 0) ∧
      select regTwoSel
          { id := 0, autoResolutionChosenId := 0, fireCallback := true } =
        (regTwoSel, [], []) :=
  ⟨⟨by decide, by decide⟩,
    select_unchanged_short_circuits _ _ (by decide) (by decide)⟩

open PodResolutionsPlugin in
/-- C7 (amended): after any `select` call on a registry whose entries all
have distinct ids, at most one entry has `selected = true`, provided at
most one entry was selected before the call — `select` either
short-circuits (leaving the state untouched) or recomputes every flag
from the single requested id. -/
theorem select_at_most_one_selected (s : RegistryState) (o : SelectOptions)
    (hids : (s.resolutions.map (fun r => r.id)).Nodup)
    (hpre : s.resolutions.countP (fun r => r.selected) ≤ 1) :
    (select s o).1.resolutions.countP (fun r => r.selected) ≤ 1 := by
  by_cases h : s.currentSelection.map (fun r => r.id) = some o.id ∧
      s.autoResolutionChosenId = some o.autoResolutionChosenId
  · unfold select
    rw [if_pos h]
    exact hpre
  · rw [select_resolutions_of_not_short s o h, List.countP_map]
    exact countP_id_le_one hids

open PodResolutionsPlugin in
/-- Witness for the C7 theorem: selecting entry 1 of `regTwoSel`. -/
theorem select_at_most_one_selected_witness :
    ((regTwoSel.resolutions.map (fun r => r.id)).Nodup ∧
        regTwoSel.resolutions.countP (fun r => r.selected) ≤ 1) ∧
      (select regTwoSel
          { id := 1, autoResolutionChosenId := -1,
            fireCallback := false }).1.resolutions.countP
          (fun r => r.selected) ≤ 1 :=
  ⟨⟨by decide, by decide⟩,
    select_at_most_one_selected _ _ (by decide) (by decide)⟩

open PodResolutionsPlugin in
/-- C7 counterexample: `regTwoSelDirty` is reached through the public API
(`add`, `select`, `add`) with pairwise-distinct ids throughout, yet after
a further `select` call (which short-circuits) two entries carry
`selected = true`, refuting the claim as stated. -/
theorem select_at_most_one_selected_counterexample :
    (regTwoSelDirty.resolutions.map (fun r => r.id)).Nodup ∧
      (select regTwoSelDirty
          { id := 0, autoResolutionChosenId := 0,
            fireCallback := false }).1.resolutions.countP
        (fun r => r.selected) = 2 := by
  decide

open PodResolutionsPlugin in
/-- C8 (amended): registry operations are total — `remove` with an absent
id leaves the resolutions list unchanged, and a `select` whose id matches
no entry sets every `selected` flag to `false` provided it does not
short-circuit on a stale `currentSelection`; no operation signals an
error (all are total functions). -/
theorem registry_total_on_absent_ids (s : RegistryState) (i : Int)
    (o : SelectOptions)
    (hrem : ∀ r ∈ s.resolutions, r.id ≠ i)
    (hsel : ¬(s.currentSelection.map (fun r => r.id) = some o.id ∧
        s.autoResolutionChosenId = some o.autoResolutionChosenId))
    (habs : ∀ r ∈ s.resolutions, r.id ≠ o.id) :
    (remove s i).1.resolutions = s.resolutions ∧
      ∀ r ∈ (select s o).1.resolutions, r.selected = false := by
  constructor
  · show s.resolutions.filter (fun r => ¬ r.id = i) = s.resolutions
    rw [List.filter_eq_self]
    intro r hr
    simpa using hrem r hr
  · intro r hr
    rw [select_resolutions_of_not_short s o hsel] at hr
    obtain ⟨r', hr', rfl⟩ := List.mem_map.mp hr
    simp [habs r' hr']

open PodResolutionsPlugin in
/-- Witness for the C8 theorem: `remove(99)` and `select({id: 42})` on
`regTwoSel`, neither id being present. -/
theorem registry_total_on_absent_ids_witness :
    ((∀ r ∈ regTwoSel.resolutions, r.id ≠ 99) ∧
        ¬(regTwoSel.currentSelection.map (fun r => r.id) = some 42 ∧
          regTwoSel.autoResolutionChosenId = some (-1)) ∧
        (∀ r ∈ regTwoSel.resolutions, r.id ≠ 42)) ∧
      (remove regTwoSel 99).1.resolutions = regTwoSel.resolutions ∧
        ∀ r ∈ (select regTwoSel
            { id := 42, autoResolutionChosenId := -1,
              fireCallback := false }).1.resolutions,
          r.selected = false :=
  ⟨⟨by decide, by decide, by decide⟩,
    registry_total_on_absent_ids _ _ _ (by decide) (by decide) (by decide)⟩

open PodResolutionsPlugin in
/-- C8 counterexample: `regStale` is reached through the public API
(`add`, `select`, `add`, `remove`); id 0 matches no remaining entry, yet
`select({id: 0, autoResolutionChosenId: 0})` short-circuits on the stale
`currentSelection` and leaves an entry with `selected = true`, refuting
the claim that such a `select` makes every flag `false`. -/
theorem registry_total_on_absent_ids_counterexample :
    (∀ r ∈ regStale.resolutions, r.id ≠ 0) ∧
      (select regStale
          { id := 0, autoResolutionChosenId := 0,
            fireCallback := false }).1.resolutions.any
        (fun r => r.selected) = true := by
  decide

namespace Html5Hlsjs

lemma bumpErrorCount_same (c : String → Option Nat) (t : String) :
    bumpErrorCount c t t = some ((c t).getD 0 + 1) := by
  unfold bumpErrorCount
  rw [if_pos rfl]
  cases h : c t with
  | none => simp
  | some n => by_cases hn : n = 0 <;> simp [hn]

lemma bumpErrorCount_other (c : String → Option Nat) (t u : String)
    (h : u ≠ t) : bumpErrorCount c t u = c u := by
  unfold bumpErrorCount
  rw [if_neg h]

lemma onError_state (s : HlsState) (env : HlsEnv) (d : ErrorData) :
    (onError s env d).1 =
      { s with errorCounts := bumpErrorCount s.errorCounts d.type } := by
  simp only [onError]
  split_ifs <;> rfl

lemma onError_effects_network (s : HlsState) (env : HlsEnv) (d : ErrorData)
    (ht : d.type = NETWORK_ERROR) :
    (onError s env d).2 =
      handleNetworkError
        { s with errorCounts := bumpErrorCount s.errorCounts d.type } env
        { hlsErrorOf d with code := some 2 } := by
  simp only [onError]
  rw [if_pos ht]

lemma onError_effects_media (s : HlsState) (env : HlsEnv) (d : ErrorData)
    (ht : d.type = MEDIA_ERROR) (hf : d.fatal = true)
    (hd : d.details ≠ "manifestIncompatibleCodecsError") :
    (onError s env d).2 =
      handleMediaError
        { s with errorCounts := bumpErrorCount s.errorCounts d.type } env
        { hlsErrorOf d with code := some 3 } := by
  have hnet : ¬ d.type = NETWORK_ERROR := by
    rw [ht]; decide
  simp only [onError]
  rw [if_neg hnet, if_pos ⟨hf, ht, hd⟩]

lemma onError_effects_other_fatal (s : HlsState) (env : HlsEnv)
    (d : ErrorData) (hf : d.fatal = true) (hnet : d.type ≠ NETWORK_ERROR)
    (hmed : d.type = MEDIA_ERROR →
      d.details = "manifestIncompatibleCodecsError") :
    (onError s env d).2 = handleUnrecovarableError env (hlsErrorOf d) := by
  simp only [onError]
  rw [if_neg hnet, if_neg (fun h => h.2.2 (hmed h.2.1)), if_pos hf]

lemma onError_effects_nonfatal (s : HlsState) (env : HlsEnv)
    (d : ErrorData) (hf : d.fatal = false)
    (hnet : d.type ≠ NETWORK_ERROR) :
    (onError s env d).2 = [] := by
  have hft : ¬ d.fatal = true := by simp [hf]
  simp only [onError]
  rw [if_neg hnet, if_neg (fun h => hft h.1), if_neg hft]

lemma fragLoadedReset_network (s : HlsState) :
    (fragLoadedReset s).errorCounts NETWORK_ERROR = some 0 := by
  unfold fragLoadedReset
  simp

end Html5Hlsjs

open Html5Hlsjs in
/-- C2: for fatal media-classification errors the recovery acts on the
running media-error count — 1st occurrence: recover; 2nd: swap the audio
codec then recover; 3rd and later: escalate to the unrecoverable path —
and with a single available quality level, 3 consecutive media errors
reach terminal escalation (engine destroyed, tech error raised) exactly on
the 3rd event and not earlier. -/
theorem media_error_recovery_ladder :
    (∀ (s : HlsState) (env : HlsEnv) (d : ErrorData),
        d.type = MEDIA_ERROR → d.fatal = true →
        d.details ≠ "manifestIncompatibleCodecsError" →
        (onError s env d).1.errorCounts MEDIA_ERROR =
            some ((s.errorCounts MEDIA_ERROR).getD 0 + 1) ∧
          ((s.errorCounts MEDIA_ERROR).getD 0 = 0 →
            (onError s env d).2 = [HlsEffect.recoverMediaError]) ∧
          ((s.errorCounts MEDIA_ERROR).getD 0 = 1 →
            (onError s env d).2 =
              [HlsEffect.swapAudioCodec, HlsEffect.recoverMediaError]) ∧
          (2 ≤ (s.errorCounts MEDIA_ERROR).getD 0 →
            (onError s env d).2 =
              handleUnrecovarableError env
                { hlsErrorOf d with code := some 3 })) ∧
      (onErrorTrace initHlsState envSingleLevel
          [mediaErrorData, mediaErrorData, mediaErrorData]).2 =
        [[HlsEffect.recoverMediaError],
         [HlsEffect.swapAudioCodec, HlsEffect.recoverMediaError],
         [HlsEffect.destroy,
          HlsEffect.setTechError
            "HLS.js error: mediaError - fatal: true - bufferStalledError",
          HlsEffect.triggerTechError]] := by
  constructor
  · intro s env d ht hf hd
    have hcount :
        ({ s with errorCounts := bumpErrorCount s.errorCounts d.type } :
            HlsState).errorCounts MEDIA_ERROR =
          some ((s.errorCounts MEDIA_ERROR).getD 0 + 1) := by
      show bumpErrorCount s.errorCounts d.type MEDIA_ERROR = _
      rw [ht, bumpErrorCount_same]
    refine ⟨?_, ?_, ?_, ?_⟩
    · rw [onError_state]
      exact hcount
    · intro h0
      rw [onError_effects_media s env d ht hf hd]
      unfold handleMediaError
      rw [hcount, h0]
      simp
    · intro h1
      rw [onError_effects_media s env d ht hf hd]
      unfold handleMediaError
      rw [hcount, h1]
      simp
    · intro h2
      rw [onError_effects_media s env d ht hf hd]
      unfold handleMediaError
      rw [hcount]
      have e1 : ¬ (some ((s.errorCounts MEDIA_ERROR).getD 0 + 1) =
          some 1) := by
        intro h
        injection h with h
        omega
      have e2 : ¬ (some ((s.errorCounts MEDIA_ERROR).getD 0 + 1) =
          some 2) := by
        intro h
        injection h with h
        omega
      have e3 : jsGTN (some ((s.errorCounts MEDIA_ERROR).getD 0 + 1)) 2 =
          true := by
        simp only [jsGTN, decide_eq_true_eq]
        omega
      rw [if_neg e1, if_neg e2, if_pos e3]
  · decide

open Html5Hlsjs in
/-- Witness for the C2 theorem: the first fatal media error from a fresh
provider state leads to `recoverMediaError`. -/
theorem media_error_recovery_ladder_witness :
    (mediaErrorData.type = MEDIA_ERROR ∧ mediaErrorData.fatal = true ∧
        mediaErrorData.details ≠ "manifestIncompatibleCodecsError" ∧
        (initHlsState.errorCounts MEDIA_ERROR).getD 0 = 0) ∧
      (onError initHlsState envSingleLevel mediaErrorData).2 =
        [HlsEffect.recoverMediaError] :=
  ⟨⟨by decide, by decide, by decide, by decide⟩,
    (media_error_recovery_ladder.1 initHlsState envSingleLevel mediaErrorData
        (by decide) (by decide) (by decide)).2.1 (by decide)⟩

namespace Html5Hlsjs

lemma handleNetworkError_offline (s : HlsState) (env : HlsEnv)
    (e : HlsError) (hoff : env.onLine = false) :
    handleNetworkError s env e = [] := by
  unfold handleNetworkError
  rw [if_pos hoff]

lemma handleNetworkError_retry (s : HlsState) (env : HlsEnv) (e : HlsError)
    (hon : ¬ env.onLine = false)
    (hle : jsLE (s.errorCounts NETWORK_ERROR) s.maxNetworkErrorRecovery =
      true) :
    handleNetworkError s env e =
      [HlsEffect.scheduleRetry 1000, HlsEffect.armFragLoadedReset] := by
  unfold handleNetworkError
  rw [if_neg hon, if_pos hle]

lemma handleNetworkError_exceeded (s : HlsState) (env : HlsEnv)
    (e : HlsError) (hon : ¬ env.onLine = false)
    (hgt : ¬ jsLE (s.errorCounts NETWORK_ERROR) s.maxNetworkErrorRecovery =
      true) :
    handleNetworkError s env e = handleUnrecovarableError env e := by
  unfold handleNetworkError
  rw [if_neg hon, if_neg hgt]

end Html5Hlsjs

open Html5Hlsjs in
/-- C3: every handled network error whose running count is at most the
ceiling (5 by default, 30 once a level-loaded event classifies the session
as live) schedules a 1-second retry and arms the reset of the network
counter to 0 on the next loaded fragment; the first error whose count
exceeds the ceiling instead enters the unrecoverable/level-removal
fallback — concretely, 6 consecutive network errors on a fresh (non-live)
session yield 5 retries and then level removal on the 6th. -/
theorem network_error_retry_policy :
    (∀ (s : HlsState) (env : HlsEnv) (d : ErrorData),
        d.type = NETWORK_ERROR → env.onLine = true →
        ((s.errorCounts NETWORK_ERROR).getD 0 + 1 ≤
            s.maxNetworkErrorRecovery →
          (onError s env d).2 =
              [HlsEffect.scheduleRetry 1000, HlsEffect.armFragLoadedReset] ∧
            (fragLoadedReset (onError s env d).1).errorCounts NETWORK_ERROR =
              some 0) ∧
        (s.maxNetworkErrorRecovery <
            (s.errorCounts NETWORK_ERROR).getD 0 + 1 →
          (onError s env d).2 =
            handleUnrecovarableError env
              { hlsErrorOf d with code := some 2 })) ∧
      initHlsState.maxNetworkErrorRecovery = 5 ∧
      (∀ s : HlsState, (onLevelLoaded s true).maxNetworkErrorRecovery = 30) ∧
      (onErrorTrace initHlsState envTwoLevels
          (List.replicate 6 networkErrorData)).2 =
        List.replicate 5
            [HlsEffect.scheduleRetry 1000, HlsEffect.armFragLoadedReset] ++
          [[HlsEffect.removeLevel 1, HlsEffect.podRemove 1,
            HlsEffect.setCurrentLevelAuto]] := by
  refine ⟨?_, rfl, fun s => rfl, by decide⟩
  intro s env d ht hon
  have hnoff : ¬ env.onLine = false := by simp [hon]
  have hcount :
      ({ s with errorCounts := bumpErrorCount s.errorCounts d.type } :
          HlsState).errorCounts NETWORK_ERROR =
        some ((s.errorCounts NETWORK_ERROR).getD 0 + 1) := by
    show bumpErrorCount s.errorCounts d.type NETWORK_ERROR = _
    rw [ht, bumpErrorCount_same]
  have hmax :
      ({ s with errorCounts := bumpErrorCount s.errorCounts d.type } :
          HlsState).maxNetworkErrorRecovery = s.maxNetworkErrorRecovery :=
    rfl
  constructor
  · intro hle
    have hjs : jsLE
        (({ s with errorCounts := bumpErrorCount s.errorCounts d.type } :
            HlsState).errorCounts NETWORK_ERROR)
        (({ s with errorCounts := bumpErrorCount s.errorCounts d.type } :
            HlsState).maxNetworkErrorRecovery) = true := by
      rw [hcount, hmax]
      simp only [jsLE, decide_eq_true_eq]
      exact hle
    constructor
    · rw [onError_effects_network s env d ht]
      exact handleNetworkError_retry _ _ _ hnoff hjs
    · rw [fragLoadedReset_network]
  · intro hgt
    have hjs : ¬ jsLE
        (({ s with errorCounts := bumpErrorCount s.errorCounts d.type } :
            HlsState).errorCounts NETWORK_ERROR)
        (({ s with errorCounts := bumpErrorCount s.errorCounts d.type } :
            HlsState).maxNetworkErrorRecovery) = true := by
      rw [hcount, hmax]
      simp only [jsLE, decide_eq_true_eq]
      omega
    rw [onError_effects_network s env d ht]
    exact handleNetworkError_exceeded _ _ _ hnoff hjs

open Html5Hlsjs in
/-- Witness for the C3 theorem: the first network error from a fresh
provider state (count 1 ≤ 5) schedules the 1-second retry and arms the
counter reset. -/
theorem network_error_retry_policy_witness :
    (networkErrorData.type = NETWORK_ERROR ∧ envTwoLevels.onLine = true ∧
        (initHlsState.errorCounts NETWORK_ERROR).getD 0 + 1 ≤
          initHlsState.maxNetworkErrorRecovery) ∧
      (onError initHlsState envTwoLevels networkErrorData).2 =
          [HlsEffect.scheduleRetry 1000, HlsEffect.armFragLoadedReset] ∧
        (fragLoadedReset
            (onError initHlsState envTwoLevels networkErrorData).1).errorCounts
          NETWORK_ERROR = some 0 :=
  ⟨⟨by decide, by decide, by decide⟩,
    (network_error_retry_policy.1 initHlsState envTwoLevels networkErrorData
        (by decide) (by decide)).1 (by decide)⟩

open Html5Hlsjs in
/-- C4: on the unrecoverable path, with more than one non-automatic
quality level remaining the policy removes the currently loading level
from the engine and the registry and forces automatic selection
(`currentLevel = -1`) without destroying the engine or surfacing a
terminal error; with at most one such level it destroys the engine,
replaces the tech's error accessor with the human-readable message derived
from the error (`_getHumanErrorMsg`, i.e. `error.message`), and triggers
`"error"` on the tech. -/
theorem unrecoverable_path_narrows_then_surfaces (env : HlsEnv)
    (error : HlsError) :
    (1 < (env.levels.filter (fun l => decide (-1 < l.id))).length →
        handleUnrecovarableError env error =
            [HlsEffect.removeLevel env.loadLevel,
             HlsEffect.podRemove env.loadLevel,
             HlsEffect.setCurrentLevelAuto] ∧
          HlsEffect.destroy ∉ handleUnrecovarableError env error ∧
          HlsEffect.triggerTechError ∉ handleUnrecovarableError env error) ∧
      ((env.levels.filter (fun l => decide (-1 < l.id))).length ≤ 1 →
        handleUnrecovarableError env error =
            [HlsEffect.destroy,
             HlsEffect.setTechError (getHumanErrorMsg error),
             HlsEffect.triggerTechError] ∧
          getHumanErrorMsg error = error.message) := by
  constructor
  · intro h
    have heq : handleUnrecovarableError env error =
        [HlsEffect.removeLevel env.loadLevel,
         HlsEffect.podRemove env.loadLevel,
         HlsEffect.setCurrentLevelAuto] := by
      unfold handleUnrecovarableError removeQuality
      rw [if_pos h]
    refine ⟨heq, ?_, ?_⟩ <;> rw [heq] <;> simp
  · intro h
    have heq : handleUnrecovarableError env error =
        [HlsEffect.destroy,
         HlsEffect.setTechError (getHumanErrorMsg error),
         HlsEffect.triggerTechError] := by
      unfold handleUnrecovarableError
      rw [if_neg (by omega)]
    exact ⟨heq, rfl⟩

open Html5Hlsjs in
/-- Witness for the C4 theorem: with the two-level environment the policy
removes the loading level and falls back to automatic mode. -/
theorem unrecoverable_path_narrows_then_surfaces_witness :
    (1 < (envTwoLevels.levels.filter
        (fun l => decide (-1 < l.id))).length) ∧
      handleUnrecovarableError envTwoLevels { message := "boom" } =
          [HlsEffect.removeLevel 1, HlsEffect.podRemove 1,
           HlsEffect.setCurrentLevelAuto] ∧
        HlsEffect.destroy ∉
          handleUnrecovarableError envTwoLevels { message := "boom" } ∧
        HlsEffect.triggerTechError ∉
          handleUnrecovarableError envTwoLevels { message := "boom" } :=
  ⟨by decide,
    (unrecoverable_path_narrows_then_surfaces envTwoLevels
        { message := "boom" }).1 (by decide)⟩

open Html5Hlsjs in
/-- C9: a network-classification error handled while the device is
offline (`navigator.onLine === false`) is a silent no-op — the handler
returns immediately with no retry, no level removal, and no terminal
error (for any error object, and through the `_onError` dispatcher for
any network-typed event). -/
theorem offline_network_error_noop (s : HlsState) (env : HlsEnv)
    (d : ErrorData) (hoff : env.onLine = false)
    (ht : d.type = NETWORK_ERROR) :
    (onError s env d).2 = [] ∧
      ∀ e : HlsError, handleNetworkError s env e = [] := by
  constructor
  · rw [onError_effects_network s env d ht]
    exact handleNetworkError_offline _ _ _ hoff
  · intro e
    exact handleNetworkError_offline _ _ _ hoff

open Html5Hlsjs in
/-- Witness for the C9 theorem: a network error on an offline single-level
environment produces no effects. -/
theorem offline_network_error_noop_witness :
    (envOffline.onLine = false ∧ networkErrorData.type = NETWORK_ERROR) ∧
      (onError initHlsState envOffline networkErrorData).2 = [] ∧
        ∀ e : HlsError, handleNetworkError initHlsState envOffline e = [] :=
  ⟨⟨by decide, by decide⟩,
    offline_network_error_noop initHlsState envOffline networkErrorData
      (by decide) (by decide)⟩

open Html5Hlsjs in
/-- C10: on every engine error event `_onError` increments exactly the
counter of that event's classification by 1 (creating it at 1), and
routes: network errors to the network policy regardless of fatality;
fatal media errors without the `manifestIncompatibleCodecsError` detail to
the media ladder; the remaining fatal errors (including fatal media errors
with that detail) straight to the unrecoverable path; non-fatal non-network
errors trigger no recovery action. -/
theorem onError_dispatch (s : HlsState) (env : HlsEnv) (d : ErrorData) :
    (onError s env d).1.errorCounts d.type =
        some ((s.errorCounts d.type).getD 0 + 1) ∧
      (∀ t, t ≠ d.type →
        (onError s env d).1.errorCounts t = s.errorCounts t) ∧
      (d.type = NETWORK_ERROR →
        (onError s env d).2 =
          handleNetworkError (onError s env d).1 env
            { hlsErrorOf d with code := some 2 }) ∧
      (d.fatal = true → d.type = MEDIA_ERROR →
        d.details ≠ "manifestIncompatibleCodecsError" →
        (onError s env d).2 =
          handleMediaError (onError s env d).1 env
            { hlsErrorOf d with code := some 3 }) ∧
      (d.fatal = true → d.type ≠ NETWORK_ERROR →
        (d.type = MEDIA_ERROR →
          d.details = "manifestIncompatibleCodecsError") →
        (onError s env d).2 = handleUnrecovarableError env (hlsErrorOf d)) ∧
      (d.fatal = false → d.type ≠ NETWORK_ERROR →
        (onError s env d).2 = []) := by
  have hstate := onError_state s env d
  refine ⟨?_, ?_, ?_, ?_, ?_, ?_⟩
  · rw [hstate]
    show bumpErrorCount s.errorCounts d.type d.type = _
    rw [bumpErrorCount_same]
  · intro t htne
    rw [hstate]
    show bumpErrorCount s.errorCounts d.type t = _
    rw [bumpErrorCount_other _ _ _ htne]
  · intro ht
    rw [onError_effects_network s env d ht, hstate]
  · intro hf ht hd
    rw [onError_effects_media s env d ht hf hd, hstate]
  · intro hf hnet hmed
    exact onError_effects_other_fatal s env d hf hnet hmed
  · intro hf hnet
    exact onError_effects_nonfatal s env d hf hnet

open Html5Hlsjs in
/-- Witness for the C10 theorem: a network error leaves the media counter
untouched and is routed to the network policy. -/
theorem onError_dispatch_witness :
    ("mediaError" ≠ networkErrorData.type ∧
        networkErrorData.type = NETWORK_ERROR) ∧
      (onError initHlsState envTwoLevels networkErrorData).1.errorCounts
          "mediaError" = initHlsState.errorCounts "mediaError" ∧
        (onError initHlsState envTwoLevels networkErrorData).2 =
          handleNetworkError
            (onError initHlsState envTwoLevels networkErrorData).1
            envTwoLevels
            { hlsErrorOf networkErrorData with code := some 2 } :=
  ⟨⟨by decide, by decide⟩,
    (onError_dispatch initHlsState envTwoLevels networkErrorData).2.1
        "mediaError" (by decide),
    (onError_dispatch initHlsState envTwoLevels networkErrorData).2.2.1
      (by decide)⟩

open Html5Hlsjs in
/-- C5 (code bug): `dispose` removes the two video-element listeners,
neutralizes the engine's loggers and destroys the engine, but contains no
`clearTimeout`; a network retry scheduled by `_handleNetworkError` before
disposal is still pending after `dispose` and its callback still runs when
the 1-second timer elapses (invoking `startLoad` on the destroyed engine)
— refuting the claim that the retry callback never executes after
disposal. -/
theorem dispose_does_not_cancel_pending_retry :
    (runProvider initProviderState
        [ProviderEvent.networkRetryScheduled,
         ProviderEvent.dispose]).retryTimerPending = true ∧
      (runProvider initProviderState
          [ProviderEvent.networkRetryScheduled, ProviderEvent.dispose,
           ProviderEvent.retryTimerElapsed]).hlsDestroyed = true ∧
      (runProvider initProviderState
          [ProviderEvent.networkRetryScheduled, ProviderEvent.dispose,
           ProviderEvent.retryTimerElapsed]).retryCallbackRan = true := by
  decide
